import Mathlib

/-
Verification of the SPA soft-navigation layer of this repository.

The repository contains several near-duplicate variants of the same
client-side navigation script.  Each variant is embedded below as a pure
Lean function over an explicit page state; the browser effects that a run
performs (network requests, history pushes, hard navigations, content
swaps) are recorded in an event trace.  The fetch-plus-parse step is
modelled by a Server function from URL strings to an optional parsed
document: a result of none stands for a network error (the fetch promise
rejecting), and some doc stands for a response body that the DOM parser
turned into the document doc.

Variant index (the names below follow the source where it names things):
 * SpaNavA.navigate        - spa-nav.js, first variant (lines 17-51)
 * MainPages.navigate      - src/unnamed/part_001 (MAIN_PAGES variant)
 * Bookshelf.navigateTo    - src/unnamed/part_000, second document
 * Bookshelf.updateActiveNav - same file
 * LoadPage.setActiveNav, LoadPage.clickHandler - spa-nav.js, third
   variant (setActiveNav / loadPage click interception)
 * Patched.fetchPage, Patched.replacePageStyles,
   Patched.extractPageContent, Patched.navigateTo,
   Patched.handleLinkClick - src/unnamed/part_002
 * clickSimple             - the prefix-filtering click handler shared
   verbatim by spa-nav.js variants one and two, part_000 document one and
   part_001
-/

namespace SpaNav

/-- JS String.prototype.startsWith, over the character list of a string. -/
def strStartsWith (s p : String) : Bool := p.data.isPrefixOf s.data

/-- JS String.prototype.endsWith, over the character list of a string. -/
def strEndsWith (s p : String) : Bool := p.data.isSuffixOf s.data

/-- JS String.prototype.trim: strip whitespace from both ends. -/
def strTrim (s : String) : String :=
  ⟨(s.data.dropWhile Char.isWhitespace).reverse.dropWhile Char.isWhitespace |>.reverse⟩

/-- JS s.replace with the pattern of one trailing slash replaced by nothing,
as used by updateActiveNav in the bookshelf variant. -/
def stripTrailingSlash (s : String) : String :=
  if strEndsWith s "/" then s.dropRight 1 else s

/-- Browser effects a navigation run can perform, recorded in order. -/
inductive Ev where
  | fetchReq (url : String)
  | push (url : String)
  | hardNav (url : String)
  | swap
deriving DecidableEq, Repr

/-- Tag name of a head-level asset element. -/
inductive ATag where
  | style
  | link
  | script
  | elem
deriving DecidableEq, BEq, Repr

/-- A style, link or script element (or any other head element, tag elem).
The pageScoped flag records presence of the data-page-style marker
attribute; attrs holds the remaining attributes and text the text content. -/
structure Asset where
  tag : ATag
  pageScoped : Bool
  attrs : List (String × String)
  text : String
deriving DecidableEq, BEq, Repr

/-- A navigation link: its href attribute (taken as already resolved where a
variant resolves it) and whether it carries the active marker class. -/
structure NavLink where
  href : String
  active : Bool
deriving DecidableEq, BEq, Repr

/-- A parsed fetched document: the pieces the various navigate functions
query from DOMParser output.  Each inner field is the content of the first
matching element, none when the selector finds nothing. -/
structure SDoc where
  mainInner : Option String
  mainAppInner : Option String
  pageEnterInner : Option String
  title : Option String
  pageAssets : List Asset
deriving DecidableEq, Repr

/-- A server: what fetching plus parsing a URL yields; none is a network
error (rejected fetch promise). -/
abbrev Server := String → Option SDoc

/-- The URLs actually requested over the network during a run. -/
def fetchAttempts (t : List Ev) : List String :=
  t.filterMap fun e =>
    match e with
    | Ev.fetchReq u => some u
    | _ => none

/-- The URLs of hard browser navigations performed during a run. -/
def hardNavAttempts (t : List Ev) : List String :=
  t.filterMap fun e =>
    match e with
    | Ev.hardNav u => some u
    | _ => none

/-- CandidateURLSet as the specification words it (spec-side definition,
written from the spec and not from the source, for comparison against the
code): exact URL, trailing-slash-normalized counterpart, directory-index
form, in that order, duplicates dropped keeping the first occurrence. -/
def specCandidateSet (url : String) : List String :=
  let slashNorm := if strEndsWith url "/" then url.dropRight 1 else url ++ "/"
  let indexForm := (if strEndsWith url "/" then url else url ++ "/") ++ "index.html"
  ([url, slashNorm, indexForm]).foldl
    (fun acc u => if u ∈ acc then acc else acc ++ [u]) []

/-- Selector used by part_002 replacePageStyles: a style, link or script
element carrying the data-page-style attribute. -/
def matchesPageSel (a : Asset) : Bool :=
  a.pageScoped && (a.tag == ATag.style || a.tag == ATag.link || a.tag == ATag.script)

/-- Selector used by the style swap of spa-nav.js variant two and of
part_001: only style elements carrying data-page-style. -/
def matchesStyleSel (a : Asset) : Bool :=
  a.pageScoped && a.tag == ATag.style

/-- The style swap done inline by spa-nav.js variant two and part_001:
remove every style element with data-page-style from the live document,
then append a clone of each such style of the fetched document to head.
Link and script assets are not touched by this variant. -/
def styleOnlySwap (head : List Asset) (docAssets : List Asset) : List Asset :=
  head.filter (fun a => !matchesStyleSel a) ++ docAssets.filter matchesStyleSel

/-- Outcome of an intercepted click: browser default handling, default
prevented with no navigation started, or default prevented and the soft
navigation pipeline invoked on a URL. -/
inductive ClickRes where
  | browserDefault
  | suppress
  | intercept (url : String)
deriving DecidableEq, Repr

/-- A resolved URL as new URL(href, origin) yields it: origin, pathname and
search (query) components. -/
structure UrlParts where
  origin : String
  path : String
  search : String
deriving DecidableEq, Repr

/-- The click handler shared verbatim by spa-nav.js variants one and two,
part_000 document one and part_001: take the closest a[data-spa] ancestor;
when its href attribute is missing, empty, or starts with the string http,
give the event back to the browser; otherwise prevent default and navigate
to the raw href.  Modifier keys, the click button and the resolved origin
are never consulted. -/
def clickSimple (spaAnchor : Bool) (href : Option String) : ClickRes :=
  if !spaAnchor then ClickRes.browserDefault
  else
    match href with
    | none => ClickRes.browserDefault
    | some url =>
      if url = "" then ClickRes.browserDefault
      else if strStartsWith url "http" then ClickRes.browserDefault
      else ClickRes.intercept url

namespace SpaNavA

/-- Live page state for the first spa-nav.js variant: the main element
content (none when no main exists) and the nav links. -/
structure Page where
  mainInner : Option String
  navLinks : List NavLink
deriving DecidableEq, Repr

/-- The navigate function of spa-nav.js lines 17-51: fetch the URL, parse
it, replace the live main element with the fetched one, toggle the active
class on each nav link by comparing its raw href attribute with the
navigated URL string, and push a history entry when push is set.  When the
fetch throws, or either document lacks a main element, fall back to a hard
browser navigation and leave the page untouched. -/
def navigate (server : Server) (url : String) (push : Bool) (pg : Page) :
    Page × List Ev :=
  match server url with
  | none => (pg, [Ev.fetchReq url, Ev.hardNav url])
  | some doc =>
    match doc.mainInner, pg.mainInner with
    | some newMain, some _ =>
      ({ mainInner := some newMain,
         navLinks := pg.navLinks.map fun a => { a with active := a.href = url } },
       [Ev.fetchReq url, Ev.swap] ++ (if push then [Ev.push url] else []))
    | _, _ => (pg, [Ev.fetchReq url, Ev.hardNav url])

/-- The popstate handler of spa-nav.js lines 66-68: re-navigate to the
current pathname with the history push suppressed. -/
def popstateHandler (server : Server) (locPath : String) (pg : Page) :
    Page × List Ev :=
  navigate server locPath false pg

end SpaNavA

namespace MainPages

/-- Live page state for the part_001 variant: head assets, main content
and nav links. -/
structure Page where
  headAssets : List Asset
  mainInner : Option String
  navLinks : List NavLink
deriving DecidableEq, Repr

/-- The navigate function of part_001 lines 29-96: fetch and parse, swap
the page-scoped style elements (before the main check), then replace the
live main, toggle active nav classes against the raw URL string, and push
history when push is set.  Fetch errors and a missing main element fall
back to a hard navigation; in the missing-main case the style swap has
already happened. -/
def navigate (server : Server) (url : String) (push : Bool) (pg : Page) :
    Page × List Ev :=
  match server url with
  | none => (pg, [Ev.fetchReq url, Ev.hardNav url])
  | some doc =>
    let head2 := styleOnlySwap pg.headAssets doc.pageAssets
    match doc.mainInner, pg.mainInner with
    | some newMain, some _ =>
      ({ headAssets := head2,
         mainInner := some newMain,
         navLinks := pg.navLinks.map fun a => { a with active := a.href = url } },
       [Ev.fetchReq url, Ev.swap] ++ (if push then [Ev.push url] else []))
    | _, _ => ({ pg with headAssets := head2 }, [Ev.fetchReq url, Ev.hardNav url])

end MainPages

namespace Bookshelf

/-- The active-link predicate of updateActiveNav in part_000: compare the
link path and the location path with one trailing slash stripped; a link is
active on exact match or when the location path merely starts with the link
path (sub-path match), except that the root link is forcibly inactive away
from the root. -/
def linkIsActive (href currentPath : String) : Bool :=
  let linkPath := stripTrailingSlash href
  let locationPath := stripTrailingSlash currentPath
  let isActive := linkPath = locationPath ||
    (linkPath != "" && linkPath != "/" && strStartsWith locationPath linkPath)
  if href = "/" && currentPath != "/" then false else isActive

/-- The updateActiveNav function of part_000 lines 103-124, applied to the
list of nav links with the current location pathname. -/
def updateActiveNav (links : List NavLink) (currentPath : String) :
    List NavLink :=
  links.map fun link => { link with active := linkIsActive link.href currentPath }

/-- Live page state for the bookshelf variant of part_000. -/
structure Page where
  pageStyleText : Option String
  mainInner : Option String
  title : String
  navLinks : List NavLink
deriving DecidableEq, Repr

/-- Text content of the first style element carrying data-page-style in a
fetched document, as querySelector returns it. -/
def firstPageStyle (doc : SDoc) : Option String :=
  ((doc.pageAssets.filter matchesStyleSel).head?).map fun a => a.text

/-- The navigateTo function of part_000 lines 68-101: fetch and parse;
overwrite the text of the live page style when both documents have one;
read the inner HTML of the fetched main (a missing main makes this throw,
landing in the catch) and write it into the live main (likewise throwing
when the live page has none); set the title; push a history entry
unconditionally; recompute active links against the new location pathname.
The catch performs a hard navigation to the URL. -/
def navigateTo (server : Server) (url : String) (pg : Page) :
    Page × List Ev :=
  match server url with
  | none => (pg, [Ev.fetchReq url, Ev.hardNav url])
  | some doc =>
    let styleText :=
      match firstPageStyle doc, pg.pageStyleText with
      | some t, some _ => some t
      | _, s => s
    match doc.mainInner, pg.mainInner with
    | some newInner, some _ =>
      ({ pageStyleText := styleText,
         mainInner := some newInner,
         title := (doc.title).getD "",
         navLinks := updateActiveNav pg.navLinks url },
       [Ev.fetchReq url, Ev.swap, Ev.push url])
    | _, _ =>
      ({ pg with pageStyleText := styleText }, [Ev.fetchReq url, Ev.hardNav url])

/-- The click handler of part_000 lines 50-60: require a closest
a[data-spa] ancestor and no ctrl, meta or shift key; then prevent default;
when the raw href equals the current location pathname stop there,
otherwise invoke navigateTo.  The resolved origin and the opt-out marker
are never consulted. -/
def clickHandler (spaAnchor ctrlKey metaKey shiftKey : Bool)
    (href locPath : String) : ClickRes :=
  if !spaAnchor || ctrlKey || metaKey || shiftKey then ClickRes.browserDefault
  else if href = locPath then ClickRes.suppress
  else ClickRes.intercept href

end Bookshelf

namespace LoadPage

/-- The setActiveNav function of spa-nav.js lines 197-207: each nav link
is given the active class exactly when its resolved pathname equals the
supplied pathname.  The href field of a NavLink holds that resolved
pathname here (the source computes it as new URL of the href against the
current origin). -/
def setActiveNav (links : List NavLink) (pathname : String) : List NavLink :=
  links.map fun link => { link with active := link.href = pathname }

/-- The click handler of spa-nav.js lines 260-278: require a closest
a[data-spa] ancestor; give cross-origin links back to the browser without
preventing default; suppress (prevent default, no navigation) when the
resolved path and search equal the current ones; otherwise prevent default
and invoke loadPage.  The modifier-key and button arguments are received
from the event but never consulted, and there is no opt-out marker check. -/
def clickHandler (spaAnchor : Bool)
    (ctrlKey metaKey shiftKey altKey : Bool) (button : Nat)
    (link loc : UrlParts) : ClickRes :=
  if !spaAnchor then ClickRes.browserDefault
  else if link.origin != loc.origin then ClickRes.browserDefault
  else if link.path = loc.path && link.search = loc.search then ClickRes.suppress
  else ClickRes.intercept (link.path ++ link.search)

end LoadPage

namespace Patched

/-- Live page state for part_002: head assets and the content of the
main#app mount point (none when the live page has no mount point). -/
structure Page where
  headAssets : List Asset
  mainAppInner : Option String
deriving DecidableEq, Repr

/-- Outcome of a part_002 navigateTo run: ok when the promise chain ran to
completion, thrown when it ended in an unhandled rejection (there is no
catch in navigateTo, so nothing recovers and no fallback runs). -/
inductive Out where
  | ok (pg : Page) (trace : List Ev)
  | thrown (pg : Page) (trace : List Ev)
deriving DecidableEq, Repr

/-- Trace of events a part_002 run performed, whichever way it ended. -/
def Out.trace : Out → List Ev
  | Out.ok _ t => t
  | Out.thrown _ t => t

/-- Page state at the end of a part_002 run, whichever way it ended. -/
def Out.page : Out → Page
  | Out.ok p _ => p
  | Out.thrown p _ => p

/-- The fetchPage utility of part_002 lines 18-25: one fetch of the given
URL, body read as text and handed to DOMParser.  No candidate URLs, no
retry, no validation of the body. -/
def fetchPage (server : Server) (url : String) : Option SDoc × List Ev :=
  (server url, [Ev.fetchReq url])

/-- The replacePageStyles function of part_002 lines 35-63: remove every
style, link or script element with data-page-style from head, then append
the corresponding elements of the fetched document (scripts rebuilt fresh
with the same attributes and text so that they execute). -/
def replacePageStyles (head : List Asset) (docAssets : List Asset) :
    List Asset :=
  head.filter (fun a => !matchesPageSel a) ++ docAssets.filter matchesPageSel

/-- The extractPageContent function of part_002 lines 71-82: prefer the
inner HTML of the page-enter wrapper; when that wrapper is missing or its
trimmed content is empty, fall back to main#app of the fetched document;
when neither exists the result is the empty string. -/
def extractPageContent (doc : SDoc) : String :=
  match doc.pageEnterInner with
  | some s =>
    if (strTrim s).length = 0 then (doc.mainAppInner).getD "" else s
  | none => (doc.mainAppInner).getD ""

/-- The navigateTo function of part_002 lines 86-104: fetch and parse (an
error here is an unhandled rejection, nothing recovers); replace the page
assets; write the extracted content into main#app (when the live page has
no main#app this throws, again unhandled, after the assets were already
replaced); then always push a history entry.  There is no hard-navigation
fallback anywhere in this variant. -/
def navigateTo (server : Server) (url : String) (pg : Page) : Out :=
  match fetchPage server url with
  | (none, t) => Out.thrown pg t
  | (some doc, t) =>
    let head2 := replacePageStyles pg.headAssets doc.pageAssets
    match pg.mainAppInner with
    | none => Out.thrown { pg with headAssets := head2 } t
    | some _ =>
      Out.ok { headAssets := head2, mainAppInner := some (extractPageContent doc) }
        (t ++ [Ev.swap, Ev.push url])

/-- The popstate handler of part_002 lines 128-130: call navigateTo on the
current location pathname, with no flag to suppress the history push. -/
def popstateHandler (server : Server) (locPath : String) (pg : Page) : Out :=
  navigateTo server locPath pg

/-- The handleLinkClick function of part_002 lines 109-123: take the
closest anchor ancestor of any kind; let the browser handle it when that
anchor carries data-no-spa or lacks data-spa; otherwise prevent default and
invoke navigateTo on the raw href.  Modifier keys, the button and the
resolved origin are never consulted. -/
def handleLinkClick (anchorFound noSpaMarker spaMarker : Bool)
    (href : String) : ClickRes :=
  if !anchorFound then ClickRes.browserDefault
  else if noSpaMarker then ClickRes.browserDefault
  else if !spaMarker then ClickRes.browserDefault
  else ClickRes.intercept href

end Patched

/-- A script element of a content fragment: resolved src (none when absent),
inline text, remaining attributes, and whether the element came out of
DOMParser (such an element is inert: the browser never executes it). -/
structure ScriptEl where
  src : Option String
  text : String
  attrs : List (String × String)
  viaParser : Bool
deriving DecidableEq, Repr

/-- A node of a content fragment: a script element or any other markup. -/
inductive FragNode where
  | script (s : ScriptEl)
  | elem (html : String)
deriving DecidableEq, Repr

/-- The per-script body of the re-run loop in spa-nav.js lines 128-136 and
part_001 lines 63-71: createElement a fresh script, copy the src when the
old one has a source reference and otherwise copy the inline text, and
replace the old element with the fresh one.  No other attribute is copied,
and the fresh element is created live, so it executes. -/
def freshScriptOf (old : ScriptEl) : ScriptEl :=
  match old.src with
  | some s => { src := some s, text := "", attrs := [], viaParser := false }
  | none => { src := none, text := old.text, attrs := [], viaParser := false }

/-- The whole re-run loop over a freshly inserted fragment: every script
node is replaced in place by its fresh reconstruction, other nodes stay. -/
def rerunScripts (frag : List FragNode) : List FragNode :=
  frag.map fun n =>
    match n with
    | FragNode.script s => FragNode.script (freshScriptOf s)
    | FragNode.elem h => FragNode.elem h

/-- Discipline of a navigation trace: a history push only happens in runs
that performed the content swap, and a run that fell back to a hard
navigation pushed nothing. -/
def pushOnlyAfterSwap (t : List Ev) : Prop :=
  (∀ u, Ev.push u ∈ t → Ev.swap ∈ t) ∧
  (∀ u v, Ev.hardNav v ∈ t → Ev.push u ∉ t)

/-- Concrete fetched document holding only a main element. -/
def docMainOnly : SDoc :=
  { mainInner := some "PORTFOLIO", mainAppInner := none, pageEnterInner := none,
    title := none, pageAssets := [] }

/-- Concrete fetched document holding only a main#app element. -/
def docApp : SDoc :=
  { mainInner := none, mainAppInner := some "RESTORED", pageEnterInner := none,
    title := none, pageAssets := [] }

/-- Concrete fetched document with no page-enter wrapper and no main#app:
no content fragment can be extracted from it. -/
def docNoFrag : SDoc :=
  { mainInner := none, mainAppInner := none, pageEnterInner := none,
    title := none, pageAssets := [] }

/-- A static host that serves a page only under the trailing-slash spelling
of /a and errors on every other request. -/
def serverSlashOnly : Server := fun u => if u = "/a/" then some docMainOnly else none

/-- A server on which every request fails with a network error. -/
def noServer : Server := fun _ => none

/-- A server answering every request with the same document. -/
def serverAlways (d : SDoc) : Server := fun _ => some d

/-- Concrete live page for the first spa-nav.js variant. -/
def pgA0 : SpaNavA.Page :=
  { mainInner := some "HOME",
    navLinks := [{ href := "/", active := true }, { href := "/a", active := false }] }

/-- Concrete live page for part_002 whose mount point holds content. -/
def pgP0 : Patched.Page := { headAssets := [], mainAppInner := some "PREVIOUS" }

/-- Concrete live page for part_002 used for the popstate run. -/
def pgP1 : Patched.Page := { headAssets := [], mainAppInner := some "CURRENT" }

/-- A page-scoped script asset sitting in the head of the live page. -/
def scriptAsset : Asset :=
  { tag := ATag.script, pageScoped := true, attrs := [], text := "initPage()" }

/-- C1 counterexample: the spec-side candidate set for /a is the three
spellings /a, /a/ and /a/index.html, and on a host that errors on /a but
serves /a/, the navigate function of spa-nav.js requests only /a and falls
back to a hard navigation: the second candidate is never tried, refuting
the claimed multi-candidate retry. -/
theorem c1_counterexample :
    specCandidateSet "/a" = ["/a", "/a/", "/a/index.html"] ∧
    serverSlashOnly "/a" = none ∧
    serverSlashOnly "/a/" = some docMainOnly ∧
    (SpaNavA.navigate serverSlashOnly "/a" true pgA0).2 =
      [Ev.fetchReq "/a", Ev.hardNav "/a"] ∧
    fetchAttempts (SpaNavA.navigate serverSlashOnly "/a" true pgA0).2 = ["/a"] := by
  decide

/-- C2: evaluated at the failing input, the part_002 navigateTo with a
fetched document from which no content fragment can be extracted empties
the mount point (innerHTML set to the empty string), performs no hard
navigation anywhere in the run, and even pushes a history entry, although
the prior mount content was non-empty. -/
theorem c2_missing_fragment_empties_mount :
    Patched.navigateTo (serverAlways docNoFrag) "/x" pgP0 =
      Patched.Out.ok { headAssets := [], mainAppInner := some "" }
        [Ev.fetchReq "/x", Ev.swap, Ev.push "/x"] ∧
    hardNavAttempts (Patched.navigateTo (serverAlways docNoFrag) "/x" pgP0).trace =
      [] ∧
    pgP0.mainAppInner = some "PREVIOUS" := by
  decide

/-- C3: evaluated at the failing input, a popstate replay in the part_002
variant calls navigateTo, which unconditionally pushes a history entry, so
the back/forward replay grows the history stack (and no active-link update
happens anywhere in this variant). -/
theorem c3_popstate_pushes_history :
    Patched.popstateHandler (serverAlways docApp) "/" pgP1 =
      Patched.Out.ok { headAssets := [], mainAppInner := some "RESTORED" }
        [Ev.fetchReq "/", Ev.swap, Ev.push "/"] ∧
    Ev.push "/" ∈ (Patched.popstateHandler (serverAlways docApp) "/" pgP1).trace := by
  decide

/-- C4 counterexample: the style swap of spa-nav.js variant two touches
only style elements, so a page-scoped script attached by the previous page
survives a navigation to a page with no page assets at all: the set of
attached page-scoped assets does not equal the set of the new page. -/
theorem c4_counterexample :
    matchesPageSel scriptAsset = true ∧
    styleOnlySwap [scriptAsset] [] = [scriptAsset] ∧
    (styleOnlySwap [scriptAsset] []).filter matchesPageSel ≠
      List.filter matchesPageSel [] := by
  decide

/-- C5 counterexample: with the browser located at /a, the prefix-filtering
click handler of spa-nav.js lines 54-63 intercepts a click on a data-spa
link whose href is /a (it never compares the target with the current
location), and the navigate call it makes issues a network fetch of /a —
the claim requires that no fetch occur for such a click. -/
theorem c5_counterexample :
    clickSimple true (some "/a") = ClickRes.intercept "/a" ∧
    Ev.fetchReq "/a" ∈ (SpaNavA.navigate noServer "/a" true pgA0).2 := by
  decide

/-- C6 counterexample: the bookshelf updateActiveNav marks a link active
when the current path merely starts with the link path, so after navigating
to /bookshelf/special with nav links /bookshelf and /bookshelf/special both
links carry the active marker, although the normalized path of the first
differs from the current path — refuting exactly-one-match-only. -/
theorem c6_counterexample :
    Bookshelf.updateActiveNav
        [{ href := "/bookshelf", active := false },
         { href := "/bookshelf/special", active := false }] "/bookshelf/special" =
      [{ href := "/bookshelf", active := true },
       { href := "/bookshelf/special", active := true }] ∧
    stripTrailingSlash "/bookshelf" ≠ stripTrailingSlash "/bookshelf/special" := by
  decide

/-- C7 counterexample: the script reconstruction of spa-nav.js lines
128-136 copies only the inline text of a source-less script; an attribute
such as type module is dropped from the fresh element, refuting the claimed
copying of attributes. -/
theorem c7_counterexample :
    freshScriptOf
        { src := none, text := "initCarousel()", attrs := [("type", "module")],
          viaParser := true } =
      { src := none, text := "initCarousel()", attrs := [], viaParser := false } ∧
    [("type", "module")] ≠ ([] : List (String × String)) := by
  decide

/-- C8 counterexample: the loadPage click handler intercepts a same-origin
data-spa click even with ctrl and meta held (it never reads the modifier
keys), and the part_002 handleLinkClick intercepts a data-spa link whose
href is a cross-origin absolute URL (it never checks the origin) — two of
the claimed eligibility conditions are not enforced. -/
theorem c8_counterexample :
    LoadPage.clickHandler true true true false false 0
        { origin := "https://site.example", path := "/b", search := "" }
        { origin := "https://site.example", path := "/a", search := "" } =
      ClickRes.intercept "/b" ∧
    Patched.handleLinkClick true false true "https://evil.example/x" =
      ClickRes.intercept "https://evil.example/x" := by
  decide

/-- C1 amended: every navigation run of every variant issues exactly one
network request, for the requested URL spelled exactly as given; no
trailing-slash or index-file candidate is ever tried. -/
theorem c1_single_fetch (server : Server) (url : String) (push : Bool)
    (pgA : SpaNavA.Page) (pgM : MainPages.Page) (pgB : Bookshelf.Page)
    (pgP : Patched.Page) :
    fetchAttempts (SpaNavA.navigate server url push pgA).2 = [url] ∧
    fetchAttempts (MainPages.navigate server url push pgM).2 = [url] ∧
    fetchAttempts (Bookshelf.navigateTo server url pgB).2 = [url] ∧
    fetchAttempts (Patched.navigateTo server url pgP).trace = [url] := by
  refine ⟨?_, ?_, ?_, ?_⟩
  · unfold SpaNavA.navigate
    cases server url with
    | none => rfl
    | some doc =>
      obtain ⟨mi, ma, pe, ti, pa⟩ := doc
      cases mi <;> cases pgA.mainInner <;> cases push <;> rfl
  · unfold MainPages.navigate
    cases server url with
    | none => rfl
    | some doc =>
      obtain ⟨mi, ma, pe, ti, pa⟩ := doc
      cases mi <;> cases pgM.mainInner <;> cases push <;> rfl
  · unfold Bookshelf.navigateTo
    cases server url with
    | none => rfl
    | some doc =>
      obtain ⟨mi, ma, pe, ti, pa⟩ := doc
      cases mi <;> cases pgB.mainInner <;> rfl
  · unfold Patched.navigateTo Patched.fetchPage
    cases server url with
    | none => rfl
    | some doc =>
      cases pgP.mainAppInner <;> rfl

/-- C9: in the navigate functions of spa-nav.js, part_001 and the
bookshelf navigateTo of part_000, a history entry is pushed only in runs
whose content swap completed, and any run that fell back to a hard
navigation pushed nothing, whatever the server, URL and page state. -/
theorem c9_push_only_after_successful_swap (server : Server) (url : String)
    (push : Bool) (pgA : SpaNavA.Page) (pgM : MainPages.Page)
    (pgB : Bookshelf.Page) :
    pushOnlyAfterSwap (SpaNavA.navigate server url push pgA).2 ∧
    pushOnlyAfterSwap (MainPages.navigate server url push pgM).2 ∧
    pushOnlyAfterSwap (Bookshelf.navigateTo server url pgB).2 := by
  refine ⟨?_, ?_, ?_⟩
  · unfold SpaNavA.navigate
    cases server url with
    | none => simp [pushOnlyAfterSwap]
    | some doc =>
      obtain ⟨mi, ma, pe, ti, pa⟩ := doc
      cases mi <;> cases pgA.mainInner <;> cases push <;>
        simp [pushOnlyAfterSwap]
  · unfold MainPages.navigate
    cases server url with
    | none => simp [pushOnlyAfterSwap]
    | some doc =>
      obtain ⟨mi, ma, pe, ti, pa⟩ := doc
      cases mi <;> cases pgM.mainInner <;> cases push <;>
        simp [pushOnlyAfterSwap]
  · unfold Bookshelf.navigateTo
    cases server url with
    | none => simp [pushOnlyAfterSwap]
    | some doc =>
      obtain ⟨mi, ma, pe, ti, pa⟩ := doc
      cases mi <;> cases pgB.mainInner <;> simp [pushOnlyAfterSwap]

/-- C9 witness: on a concrete host and page, each of the three navigate
variants satisfies the push-only-after-swap trace discipline. -/
theorem c9_witness :
    pushOnlyAfterSwap (SpaNavA.navigate noServer "/a" true pgA0).2 := by
  exact (c9_push_only_after_successful_swap noServer "/a" true pgA0
    { headAssets := [], mainInner := none, navLinks := [] }
    { pageStyleText := none, mainInner := none, title := "", navLinks := [] }).1

/-- C10: in the prefix-filtering variants, a click is intercepted exactly
when a data-spa anchor is found whose href attribute is present, non-empty
and does not start with the string http (so every same-origin absolute
http URL is handed to the browser, while protocol-relative and any other
non-empty hrefs are intercepted, the resolved origin never being checked),
and an intercepted URL is then fetched by navigate. -/
theorem c10_http_prefix_filter (spaAnchor : Bool) (href : Option String)
    (u : String) (server : Server) (push : Bool) (pg : SpaNavA.Page) :
    (clickSimple spaAnchor href = ClickRes.intercept u ↔
      spaAnchor = true ∧ href = some u ∧ u ≠ "" ∧
        strStartsWith u "http" = false) ∧
    Ev.fetchReq u ∈ (SpaNavA.navigate server u push pg).2 := by
  constructor
  · unfold clickSimple
    cases spaAnchor with
    | false => simp
    | true =>
      cases href with
      | none => simp
      | some url =>
        show (if url = "" then ClickRes.browserDefault
            else if strStartsWith url "http" then ClickRes.browserDefault
            else ClickRes.intercept url) = ClickRes.intercept u ↔
          true = true ∧ some url = some u ∧ u ≠ "" ∧
            strStartsWith u "http" = false
        constructor
        · intro h
          by_cases h1 : url = ""
          · rw [if_pos h1] at h
            exact absurd h (by simp)
          · rw [if_neg h1] at h
            by_cases h2 : strStartsWith url "http" = true
            · rw [if_pos h2] at h
              exact absurd h (by simp)
            · rw [if_neg h2] at h
              have hu : url = u := by simpa using h
              subst hu
              exact ⟨rfl, rfl, h1, by simpa using h2⟩
        · rintro ⟨-, hsome, hne, hf⟩
          have hu : url = u := by injection hsome
          subst hu
          rw [if_neg hne, if_neg (show ¬strStartsWith url "http" = true by simp [hf])]
  · unfold SpaNavA.navigate
    cases server u with
    | none => simp
    | some doc =>
      obtain ⟨mi, ma, pe, ti, pa⟩ := doc
      cases mi <;> cases pg.mainInner <;> cases push <;> simp

/-- C10 witness: a protocol-relative href on a data-spa anchor is
intercepted even though its resolved origin is foreign, and the navigate
call fetches it. -/
theorem c10_witness :
    clickSimple true (some "//evil.example/x") =
      ClickRes.intercept "//evil.example/x" ∧
    Ev.fetchReq "//evil.example/x" ∈
      (SpaNavA.navigate noServer "//evil.example/x" true pgA0).2 := by
  have h := c10_http_prefix_filter true (some "//evil.example/x")
    "//evil.example/x" noServer true pgA0
  exact ⟨h.1.mpr ⟨rfl, rfl, by decide, by decide⟩, h.2⟩

/-- C4 amended: the replacePageStyles of part_002 leaves attached exactly
the page-scoped assets of the fetched document, whatever was attached
before, and does not disturb any non-page-scoped head element; the
style-only swap of spa-nav.js variant two guarantees the same but only for
page-scoped style elements, leaving every other asset (including any
page-scoped link or script) alone. -/
theorem c4_assets_exactly_replaced (head docAssets : List Asset) :
    (Patched.replacePageStyles head docAssets).filter matchesPageSel =
      docAssets.filter matchesPageSel ∧
    (Patched.replacePageStyles head docAssets).filter
        (fun a => !matchesPageSel a) =
      head.filter (fun a => !matchesPageSel a) ∧
    (styleOnlySwap head docAssets).filter matchesStyleSel =
      docAssets.filter matchesStyleSel ∧
    (styleOnlySwap head docAssets).filter (fun a => !matchesStyleSel a) =
      head.filter (fun a => !matchesStyleSel a) := by
  unfold Patched.replacePageStyles styleOnlySwap
  refine ⟨?_, ?_, ?_, ?_⟩ <;>
    simp [List.filter_append, List.filter_filter, Bool.and_not_self,
      Bool.not_and_self, Bool.and_self]

/-- C5 amended: in the loadPage variant, a click on a data-spa link whose
resolved URL has the same origin, path and search as the current location
is suppressed — default prevented, loadPage never invoked, so no fetch and
no swap; the prefix-filtering variants instead intercept and fetch such
clicks (see the counterexample). -/
theorem c5_same_path_click_suppressed
    (ctrlKey metaKey shiftKey altKey : Bool) (button : Nat)
    (link loc : UrlParts) (ho : link.origin = loc.origin)
    (hp : link.path = loc.path) (hs : link.search = loc.search) :
    LoadPage.clickHandler true ctrlKey metaKey shiftKey altKey button link loc =
      ClickRes.suppress := by
  have h1 : (link.origin != loc.origin) = false := by simp [ho]
  have h2 : (decide (link.path = loc.path) && decide (link.search = loc.search)) =
      true := by simp [hp, hs]
  simp [LoadPage.clickHandler, h1, h2]

/-- C5 witness: a concrete click on the current path and query is
suppressed by the loadPage handler. -/
theorem c5_witness :
    LoadPage.clickHandler true true false false false 0
        { origin := "https://site.example", path := "/a", search := "?q=1" }
        { origin := "https://site.example", path := "/a", search := "?q=1" } =
      ClickRes.suppress :=
  c5_same_path_click_suppressed true false false false 0
    { origin := "https://site.example", path := "/a", search := "?q=1" }
    { origin := "https://site.example", path := "/a", search := "?q=1" }
    rfl rfl rfl

/-- C6 amended: after a navigation the links carrying the active marker are
exactly those matching the per-variant predicate — resolved pathname
equality for setActiveNav (so the count of active links is the count of
links whose pathname equals the new path, which can be zero or several, and
is one exactly when one link matches), and the linkIsActive predicate with
its sub-path prefix matching for the bookshelf updateActiveNav (so a link
whose normalized path differs from the current path can still be active);
the hrefs themselves are unchanged. -/
theorem c6_active_iff_match (links : List NavLink) (p : String) :
    ((LoadPage.setActiveNav links p).map fun l => l.href) =
      (links.map fun l => l.href) ∧
    (∀ l ∈ LoadPage.setActiveNav links p, l.active = true ↔ l.href = p) ∧
    ((LoadPage.setActiveNav links p).countP fun l => l.active) =
      (links.countP fun l => decide (l.href = p)) ∧
    (∀ l ∈ Bookshelf.updateActiveNav links p,
      l.active = Bookshelf.linkIsActive l.href p) := by
  refine ⟨?_, ?_, ?_, ?_⟩
  · simp [LoadPage.setActiveNav, List.map_map, Function.comp]
  · intro l hl
    simp only [LoadPage.setActiveNav, List.mem_map] at hl
    obtain ⟨a, _, rfl⟩ := hl
    simp
  · simp only [LoadPage.setActiveNav, List.countP_map]
    rfl
  · intro l hl
    simp only [Bookshelf.updateActiveNav, List.mem_map] at hl
    obtain ⟨a, _, rfl⟩ := hl
    rfl

/-- C6 witness: in a concrete one-link nav, the link produced by
setActiveNav is active precisely because its path equals the new path. -/
theorem c6_witness :
    ∃ l, l ∈ LoadPage.setActiveNav [{ href := "/a", active := false }] "/a" ∧
      (l.active = true ↔ l.href = "/a") := by
  refine ⟨{ href := "/a", active := true }, ?_, ?_⟩
  · simp [LoadPage.setActiveNav]
  · exact (c6_active_iff_match [{ href := "/a", active := false }] "/a").2.1
      { href := "/a", active := true } (by simp [LoadPage.setActiveNav])

/-- C7 amended: the re-run loop replaces every script of the fragment by a
fresh, executable (not parser-inert) script element that keeps the source
reference when one is present and otherwise the inline text, but drops all
other attributes; non-script nodes and the node count are untouched. -/
theorem c7_scripts_rebuilt_executable (frag : List FragNode) (m : ScriptEl) :
    (∀ s, FragNode.script s ∈ rerunScripts frag →
      s.viaParser = false ∧
        ∃ old, FragNode.script old ∈ frag ∧ s = freshScriptOf old) ∧
    (freshScriptOf m).src = m.src ∧
    (freshScriptOf m).attrs = [] ∧
    (m.src = none → (freshScriptOf m).text = m.text) ∧
    (rerunScripts frag).length = frag.length := by
  refine ⟨?_, ?_, ?_, ?_, ?_⟩
  · intro s hs
    simp only [rerunScripts, List.mem_map] at hs
    obtain ⟨n, hn, he⟩ := hs
    cases n with
    | script old =>
      have hfs : freshScriptOf old = s := by injection he
      refine ⟨?_, old, hn, hfs.symm⟩
      rw [← hfs]
      cases h : old.src <;> simp [freshScriptOf, h]
    | elem h => simp at he
  · cases h : m.src <;> simp [freshScriptOf, h]
  · cases h : m.src <;> simp [freshScriptOf, h]
  · intro h
    simp [freshScriptOf, h]
  · simp [rerunScripts]

/-- C7 witness: re-running a concrete one-script fragment yields an
executable fresh script. -/
theorem c7_witness :
    ∃ s, FragNode.script s ∈
        rerunScripts [FragNode.script ⟨none, "go()", [], true⟩] ∧
      s.viaParser = false := by
  refine ⟨⟨none, "go()", [], false⟩, ?_, ?_⟩
  · simp [rerunScripts, freshScriptOf]
  · exact ((c7_scripts_rebuilt_executable
        [FragNode.script ⟨none, "go()", [], true⟩]
        ⟨none, "", [], false⟩).1 ⟨none, "go()", [], false⟩
      (by simp [rerunScripts, freshScriptOf])).1

/-- C8 amended: each click handler enforces only its own subset of the
claimed eligibility filter — the loadPage handler intercepts iff the
data-spa anchor is found and origins match (modifiers and the opt-out
marker are ignored); the bookshelf handler iff the data-spa anchor is found
and no ctrl, meta or shift key is held (origin and opt-out ignored); the
part_002 handler iff an anchor is found that has data-spa and lacks
data-no-spa (modifiers and origin ignored); otherwise default handling
applies. -/
theorem c8_per_variant_eligibility
    (spa ctrlKey metaKey shiftKey altKey : Bool) (button : Nat)
    (link loc : UrlParts) (spaB cB mB sB : Bool) (hrefB locB : String)
    (found nospa spaP : Bool) (hrefP : String) :
    (LoadPage.clickHandler spa ctrlKey metaKey shiftKey altKey button link loc ≠
        ClickRes.browserDefault ↔ spa = true ∧ link.origin = loc.origin) ∧
    (Bookshelf.clickHandler spaB cB mB sB hrefB locB ≠ ClickRes.browserDefault ↔
      spaB = true ∧ cB = false ∧ mB = false ∧ sB = false) ∧
    (Patched.handleLinkClick found nospa spaP hrefP ≠ ClickRes.browserDefault ↔
      found = true ∧ nospa = false ∧ spaP = true) := by
  refine ⟨?_, ?_, ?_⟩
  · cases spa <;> simp [LoadPage.clickHandler] <;>
      split_ifs with h1 h2 <;> simp_all [bne_iff_ne]
  · cases spaB <;> cases cB <;> cases mB <;> cases sB <;>
      simp [Bookshelf.clickHandler] <;> split_ifs <;> simp
  · cases found <;> cases nospa <;> cases spaP <;>
      simp [Patched.handleLinkClick]

/-- C8 witness: at a concrete same-origin data-spa click the loadPage
handler does not fall through to browser default handling. -/
theorem c8_witness :
    LoadPage.clickHandler true false false false false 0
        { origin := "https://site.example", path := "/b", search := "" }
        { origin := "https://site.example", path := "/a", search := "" } ≠
      ClickRes.browserDefault :=
  (c8_per_variant_eligibility true false false false false 0
    { origin := "https://site.example", path := "/b", search := "" }
    { origin := "https://site.example", path := "/a", search := "" }
    true false false false "/b" "/a" true false true "/x").1.mpr ⟨rfl, rfl⟩

end SpaNav
